import Mathlib

/-!
# gopcua: namespace resolver, session handshake and handshake codec

A shallow embedding of the parts of the gopcua client that the specification
talks about:

* `ua/resolve/resolve.go`: `Lookup`, `StringArrayResolver`, `ClientResolver`;
* `uasc/session.go`: `Session.Open`, `Session.Close`, `createSession`,
  `activateSession` and their response handlers;
* the `Acknowledge` and `QualifiedName` wire layouts of the specification,
  whose values appear in `uacp/acknowledge_test.go`, `uacp/uacp_test.go` and
  `datatypes/qualified-name_test.go`.

Go values are embedded as follows.  A Go `error` is an `Option String`
(`none` is `nil`).  A function returning `(uint16, error)` returns a pair.
Unsigned machine integers are natural numbers, reduced modulo `2 ^ w` at every
narrowing conversion.  A Go `string` in the resolver is a Lean `String`
(compared with `==`, byte for byte); in the codec a string is either null
(`none`) or a byte sequence (`some`), the empty one included.
Pointer receivers become explicit state passing.
-/

set_option autoImplicit false

namespace Gopcua

/-! ## `ua/resolve/resolve.go` -/

namespace resolve

/-- The Go conversion `uint16(id)` of a non-negative `int`: the low 16 bits. -/
def uint16 (id : Nat) : Nat := id % 65536

/-- The text produced by `errors.Errorf("unknown namespace url %s", s)`. -/
def unknownNamespace (s : String) : String := "unknown namespace url " ++ s

/-- The loop `for id, nsu := range ns` of `Lookup`, started at index `id`:
the first element equal to `s` returns `uint16(id), nil`; running off the end
returns `0` and the error. -/
def LookupFrom (s : String) : List String → Nat → Nat × Option String
  | [], _ => (0, some (unknownNamespace s))
  | nsu :: rest, id =>
      if nsu = s then (uint16 id, none) else LookupFrom s rest (id + 1)

/-- Go: `func Lookup(s string, ns []string) (uint16, error)`. -/
def Lookup (s : String) (ns : List String) : Nat × Option String :=
  LookupFrom s ns 0

/-- Go: `type StringArrayResolver struct { Namespaces []string }`. -/
structure StringArrayResolver where
  Namespaces : List String
  deriving Repr, DecidableEq

/-- Go: `func (r *StringArrayResolver) Lookup(s string) (uint16, error)`. -/
def StringArrayResolver.Lookup (r : StringArrayResolver) (s : String) :
    Nat × Option String :=
  resolve.Lookup s r.Namespaces

/-- Go: `type ClientResolver struct`: the cached list `ns`.  The `Client` field is
represented by the outcome of its `NamespaceArray()` call, which `Refresh`
takes as an argument; the mutex only brackets the single read or write of
`ns` and has no sequential content. -/
structure ClientResolver where
  ns : List String
  deriving Repr, DecidableEq

/-- The zero value of `ClientResolver`: the cached slice is `nil`. -/
def ClientResolver.zero : ClientResolver := ⟨[]⟩

/-- Go: `func (r *ClientResolver) Refresh() error`, given what
`r.Client.NamespaceArray()` returned: an error leaves `r` alone and is
returned; a list is stored in `r.ns`. -/
def ClientResolver.Refresh (r : ClientResolver)
    (namespaceArray : Except String (List String)) :
    ClientResolver × Option String :=
  match namespaceArray with
  | .error err => (r, some err)
  | .ok ns => ({ r with ns := ns }, none)

/-- Go: `func (r *ClientResolver) Lookup(s string) (uint16, error)`. -/
def ClientResolver.Lookup (r : ClientResolver) (s : String) :
    Nat × Option String :=
  resolve.Lookup s r.ns

/-- A run of `Refresh` calls, one per outcome of `NamespaceArray()`, in
order; the errors are dropped, the resolver is threaded through. -/
def ClientResolver.refreshAll (r : ClientResolver) :
    List (Except String (List String)) → ClientResolver
  | [] => r
  | o :: os => ClientResolver.refreshAll (r.Refresh o).1 os

end resolve

/-! ## `uasc/session.go` -/

namespace services

/-- Modelled from the spec: the declaration of `services.SignatureData` is not
among the sources; it is the "signature data" of the session component, an
algorithm name with the signature bytes. -/
structure SignatureData where
  Algorithm : String
  Signature : List Nat
  deriving Repr, DecidableEq

/-- Modelled from the spec: the declaration of `services.CreateSessionResponse`
is not among the sources.  The fields are the six its handler reads and the
server signature ("the server's signature material"); the authentication
token, a node identifier the session never inspects, is a number. -/
structure CreateSessionResponse where
  AuthenticationToken : Nat
  RevisedSessionTimeout : Nat
  ServerNonce : List Nat
  ServerCertificate : List Nat
  ServerEndpoints : List String
  ServerSignature : Option SignatureData
  MaxRequestMessageSize : Nat
  deriving Repr, DecidableEq

/-- Modelled from the spec: the declaration of
`services.ActivateSessionResponse` is not among the sources; `Results` is the
list of result codes (`uint32` status codes) the handler ranges over. -/
structure ActivateSessionResponse where
  Results : List Nat
  deriving Repr, DecidableEq

/-- The request literal built in `createSession`. -/
structure CreateSessionRequest where
  ClientDescription : String
  EndpointURL : String
  SessionName : String
  ClientNonce : List Nat
  ClientCertificate : List Nat
  deriving Repr, DecidableEq

/-- The value of `datatypes.NewExtensionObject(mask, body)`. -/
structure ExtensionObject where
  EncodingMask : Nat
  Value : List Nat
  deriving Repr, DecidableEq

/-- The request literal built in `activateSession`;
`ClientSoftwareCertificates` is always `nil` there. -/
structure ActivateSessionRequest where
  ClientSignature : Option SignatureData
  ClientSoftwareCertificates : List (List Nat)
  LocaleIDs : List String
  UserIdentityToken : ExtensionObject
  UserTokenSignature : Option SignatureData
  deriving Repr, DecidableEq

/-- The services a secure channel can be asked to send.  `closeSession` is the
CloseSession request of the spec; no function of `session.go` builds one. -/
inductive Service where
  | createSession (req : CreateSessionRequest)
  | activateSession (req : ActivateSessionRequest)
  | closeSession
  deriving Repr, DecidableEq

/-- Whether a sent service is a CloseSession request. -/
def Service.isCloseSession : Service → Bool
  | .closeSession => true
  | _ => false

/-- Whether a sent service is an ActivateSession request. -/
def Service.isActivateSession : Service → Bool
  | .activateSession _ => true
  | _ => false

end services

namespace uasc

open services

/-- The `interface{}` handed to a response handler: one of the two response
types the handlers assert on, or a value of any other type, kept by the name
`%T` prints for it. -/
inductive Value where
  | createSessionResponse (resp : CreateSessionResponse)
  | activateSessionResponse (resp : ActivateSessionResponse)
  | other (typeName : String)
  deriving Repr, DecidableEq

/-- The text `%T` prints for a value. -/
def Value.typeName : Value → String
  | .createSessionResponse _ => "*services.CreateSessionResponse"
  | .activateSessionResponse _ => "*services.ActivateSessionResponse"
  | .other n => n

/-- The part of the channel's `Config` the session reads. -/
structure Config where
  Certificate : List Nat
  deriving Repr, DecidableEq

/-- The part of the channel's request header the session writes. -/
structure RequestHeader where
  AuthenticationToken : Nat
  deriving Repr, DecidableEq

/-- Modelled from the spec: the declaration of `SecureChannel` is not among
the sources.  The fields are the ones `session.go` touches (`EndpointURL`,
`cfg`, `reqhdr`) and `sent`, the requests handed to `Send` so far, oldest
first. -/
structure SecureChannel where
  EndpointURL : String
  cfg : Config
  reqhdr : RequestHeader
  sent : List Service
  deriving Repr, DecidableEq

/-- Modelled from the spec: the declaration of `SessionConfig` is not among
the sources; these are the fields `session.go` reads and writes. -/
structure SessionConfig where
  ClientDescription : String
  ServerEndpoints : List String
  SessionTimeout : Nat
  LocaleIDs : List String
  UserIdentityToken : List Nat
  UserTokenSignature : Option SignatureData
  deriving Repr, DecidableEq

/-- Go: `type Session struct`; the two pointers are values, the channel included,
since a session is the only holder of its channel here. -/
structure Session where
  sechan : SecureChannel
  cfg : SessionConfig
  maxRequestMessageSize : Nat
  mySignature : Option SignatureData
  signatureToSend : Option SignatureData
  deriving Repr, DecidableEq

/-- Go: `func NewSession(sechan *SecureChannel, cfg *SessionConfig) *Session`:
the remaining fields take their zero values. -/
def NewSession (sechan : SecureChannel) (cfg : SessionConfig) : Session :=
  { sechan := sechan, cfg := cfg, maxRequestMessageSize := 0,
    mySignature := none, signatureToSend := none }

/-- Everything outside `session.go` that `Open` depends on.

* `randRead n`: what `rand.Read` does to a buffer of `n` bytes, the bytes it
  filled in or its error;
* `unixNano`: the value of `time.Now().UnixNano()`;
* `NewSignatureDataFrom`: `services.NewSignatureDataFrom(cert, nonce)`, whose
  body is not among the sources;
* `peer log req`: how the other end answers request `req` sent after the
  requests `log`: a transport error, or the value delivered to the handler. -/
structure World where
  randRead : Nat → Except String (List Nat)
  unixNano : Nat
  NewSignatureDataFrom : List Nat → List Nat → SignatureData
  peer : List Service → Service → Except String Value

/-- Modelled from the spec: `SecureChannel.Send(req, h)` is not among the
sources.  Following the spec's `dispatch(request, continuation)`, the request
is sent (recorded in `sent`), and then either the send fails and `Send`
returns that error without running `h`, or the matched response is handed to
`h` exactly once and `Send` returns what `h` returns. -/
def SecureChannel.Send (w : World) (s : Session) (req : Service)
    (h : Value → Session → Session × Option String) : Session × Option String :=
  let s1 : Session :=
    { s with sechan := { s.sechan with sent := s.sechan.sent ++ [req] } }
  match w.peer s.sechan.sent req with
  | .error err => (s1, some err)
  | .ok v => h v s1

/-- Go: `func (s *Session) Close() error { return nil }`. -/
def Session.Close (s : Session) : Session × Option String := (s, none)

/-- The request literal of `createSession`. -/
def Session.createSessionRequest (w : World) (s : Session) (nonce : List Nat) :
    CreateSessionRequest :=
  { ClientDescription := s.cfg.ClientDescription
    EndpointURL := s.sechan.EndpointURL
    SessionName := "gopcua-" ++ toString w.unixNano
    ClientNonce := nonce
    ClientCertificate := s.sechan.cfg.Certificate }

/-- The closure passed to `Send` in `createSession`. -/
def Session.createSessionHandler (w : World) (nonce : List Nat) (v : Value)
    (s : Session) : Session × Option String :=
  match v with
  | .createSessionResponse resp =>
      ({ s with
          sechan := { s.sechan with
            reqhdr := { s.sechan.reqhdr with
              AuthenticationToken := resp.AuthenticationToken } }
          cfg := { s.cfg with
            ServerEndpoints := resp.ServerEndpoints
            SessionTimeout := resp.RevisedSessionTimeout }
          signatureToSend :=
            some (w.NewSignatureDataFrom resp.ServerCertificate resp.ServerNonce)
          maxRequestMessageSize := resp.MaxRequestMessageSize
          mySignature :=
            some (w.NewSignatureDataFrom s.sechan.cfg.Certificate nonce) },
        none)
  | v => (s, some ("invalid response. Got " ++ v.typeName ++
            ", want CreateSessionResponse"))

/-- Go: `func (s *Session) createSession() error`. -/
def Session.createSession (w : World) (s : Session) : Session × Option String :=
  match w.randRead 32 with
  | .error err => (s, some err)
  | .ok nonce =>
      SecureChannel.Send w s (.createSession (s.createSessionRequest w nonce))
        (Session.createSessionHandler w nonce)

/-- The request literal of `activateSession`. -/
def Session.activateSessionRequest (s : Session) : ActivateSessionRequest :=
  { ClientSignature := s.signatureToSend
    ClientSoftwareCertificates := []
    LocaleIDs := s.cfg.LocaleIDs
    UserIdentityToken := ⟨1, s.cfg.UserIdentityToken⟩
    UserTokenSignature := s.cfg.UserTokenSignature }

/-- The loop `for _, result := range resp.Results` of the activateSession
handler: the first non-zero result returns the error `rejected`. -/
def checkResults : List Nat → Option String
  | [] => none
  | result :: rest => if result ≠ 0 then some "rejected" else checkResults rest

/-- The closure passed to `Send` in `activateSession`. -/
def Session.activateSessionHandler (v : Value) (s : Session) :
    Session × Option String :=
  match v with
  | .activateSessionResponse resp => (s, checkResults resp.Results)
  | v => (s, some ("invalid response. Got " ++ v.typeName ++
            ", want ActivateSessionResponse"))

/-- Go: `func (s *Session) activateSession() error`. -/
def Session.activateSession (w : World) (s : Session) : Session × Option String :=
  SecureChannel.Send w s (.activateSession s.activateSessionRequest)
    Session.activateSessionHandler

/-- Go: `func (s *Session) Open() error`. -/
def Session.Open (w : World) (s : Session) : Session × Option String :=
  match Session.createSession w s with
  | (s1, some err) => (s1, some err)
  | (s1, none) => Session.activateSession w s1

end uasc

/-! ## The wire layouts of `uacp.Acknowledge` and `datatypes.QualifiedName` -/

namespace codec

/-- Modelled from the spec: the integer codec is not among the sources.
"Integers and floats are little-endian, fixed-width": a `uint16` is two
bytes, low byte first. -/
def putUint16 (v : Nat) : List Nat := [v % 256, v / 256 % 256]

/-- Modelled from the spec: the integer codec is not among the sources.
A `uint32` is four bytes, low byte first. -/
def putUint32 (v : Nat) : List Nat :=
  [v % 256, v / 256 % 256, v / 65536 % 256, v / 16777216 % 256]

/-- Modelled from the spec: reading a `uint16`; "decode fails with a
`Truncated` error if fewer bytes remain than a declared length demands". -/
def getUint16 : List Nat → Except String (Nat × List Nat)
  | b0 :: b1 :: rest => .ok (b0 + 256 * b1, rest)
  | _ => .error "Truncated"

/-- Modelled from the spec: reading a `uint32`, `Truncated` on fewer than four
bytes. -/
def getUint32 : List Nat → Except String (Nat × List Nat)
  | b0 :: b1 :: b2 :: b3 :: rest =>
      .ok (b0 + 256 * b1 + 65536 * b2 + 16777216 * b3, rest)
  | _ => .error "Truncated"

/-- The length field of a null string: `-1` as a 4-byte integer, all bits
set. -/
def null : Nat := 0xFFFFFFFF

/-- Modelled from the spec: the string codec is not among the sources.
"Strings/byte arrays: 4-byte signed length prefix; value `-1` (all bits set)
denotes a null/absent value", "distinct from an empty value (length `0`)": a
null string is the length field `ff ff ff ff` alone, any other string its
length followed by its bytes, so the empty string is `00 00 00 00` and nothing
more. -/
def putString : Option (List Nat) → List Nat
  | none => putUint32 null
  | some s => putUint32 s.length ++ s

/-- Modelled from the spec: reading a string.  The null length "decodes to
the language's absent representation", here `none`; any other length `n`
takes `n` bytes, `Truncated` when fewer remain, so length `0` yields the empty
string `some []`. -/
def getString (b : List Nat) : Except String (Option (List Nat) × List Nat) :=
  match getUint32 b with
  | .error e => .error e
  | .ok (n, rest) =>
      if n = null then .ok (none, rest)
      else if rest.length < n then .error "Truncated"
      else .ok (some (rest.take n), rest.drop n)

/-- The number a little-endian byte string stands for. -/
def leValue : List Nat → Nat
  | [] => 0
  | b :: bs => b + 256 * leValue bs

end codec

namespace uacp

open codec

/-- Modelled from the spec: the declaration of `uacp.Acknowledge` is not among
the sources: "server's negotiated buffer/message/chunk limits", with the field
names and order of the comments in `TestAcknowledge`. -/
structure Acknowledge where
  Version : Nat
  ReceiveBufSize : Nat
  SendBufSize : Nat
  MaxMessageSize : Nat
  MaxChunkCount : Nat
  deriving Repr, DecidableEq

/-- Modelled from the spec: `NewAcknowledge(ver, rcvBuf, sndBuf, maxMsg)` is
not among the sources; `TestAcknowledge` shows the fifth field,
`MaxChunkCount`, set to zero. -/
def NewAcknowledge (version recvBuf sendBuf maxMsg : Nat) : Acknowledge :=
  { Version := version, ReceiveBufSize := recvBuf, SendBufSize := sendBuf,
    MaxMessageSize := maxMsg, MaxChunkCount := 0 }

/-- Modelled from the spec: the encoder of `Acknowledge` is not among the
sources; the five fields in order, each a little-endian `uint32`. -/
def Acknowledge.encode (a : Acknowledge) : List Nat :=
  putUint32 a.Version ++ putUint32 a.ReceiveBufSize ++ putUint32 a.SendBufSize ++
    putUint32 a.MaxMessageSize ++ putUint32 a.MaxChunkCount

/-- Modelled from the spec: the decoder of `Acknowledge` is not among the
sources; `decode(bytes) -> (value, bytesConsumed)`, reading the five fields in
order. -/
def Acknowledge.decode (b : List Nat) : Except String (Acknowledge × Nat) :=
  match getUint32 b with
  | .error e => .error e
  | .ok (version, b1) =>
  match getUint32 b1 with
  | .error e => .error e
  | .ok (recvBuf, b2) =>
  match getUint32 b2 with
  | .error e => .error e
  | .ok (sendBuf, b3) =>
  match getUint32 b3 with
  | .error e => .error e
  | .ok (maxMsg, b4) =>
  match getUint32 b4 with
  | .error e => .error e
  | .ok (maxChunk, _) =>
      .ok ({ Version := version, ReceiveBufSize := recvBuf, SendBufSize := sendBuf,
             MaxMessageSize := maxMsg, MaxChunkCount := maxChunk }, 20)

end uacp

namespace datatypes

open codec

/-- Modelled from the spec: the declaration of `datatypes.QualifiedName` is
not among the sources: a `uint16` namespace index and a name, a string of the
codec, which is null (`none`), empty (`some []`) or populated. -/
structure QualifiedName where
  NamespaceIndex : Nat
  Name : Option (List Nat)
  deriving Repr, DecidableEq

/-- Modelled from the spec: `NewQualifiedName(index, name)` is not among the
sources; it stores its two arguments.  The name is given as a Go `string`,
which is never null: `""` is the empty, non-null name. -/
def NewQualifiedName (index : Nat) (name : List Nat) : QualifiedName :=
  { NamespaceIndex := index, Name := some name }

/-- Modelled from the spec: the encoder of `QualifiedName` is not among the
sources; the namespace index as a little-endian `uint16`, then the name as a
string. -/
def QualifiedName.encode (q : QualifiedName) : List Nat :=
  putUint16 q.NamespaceIndex ++ putString q.Name

/-- Modelled from the spec: the decoder of `QualifiedName` is not among the
sources; the inverse reading order, returning the value and the number of
bytes consumed. -/
def QualifiedName.decode (b : List Nat) : Except String (QualifiedName × Nat) :=
  match getUint16 b with
  | .error e => .error e
  | .ok (index, b1) =>
  match getString b1 with
  | .error e => .error e
  | .ok (name, b2) =>
      .ok ({ NamespaceIndex := index, Name := name }, b.length - b2.length)

end datatypes

/-! ## Concrete inputs -/

namespace examples

open services uasc

/-- A namespace list of 65537 entries whose only `b` is the last one. -/
def longNamespaces : List String := List.replicate 65536 "a" ++ ["b"]

/-- A CreateSessionResponse that carries no server signature at all. -/
def unsignedResponse : CreateSessionResponse :=
  { AuthenticationToken := 42
    RevisedSessionTimeout := 30000
    ServerNonce := [9, 9]
    ServerCertificate := [5]
    ServerEndpoints := ["opc.tcp://localhost:4840"]
    ServerSignature := none
    MaxRequestMessageSize := 65536 }

/-- A world in which the random source works, a signature is the certificate
followed by the nonce, and the server answers CreateSession with
`unsignedResponse` and ActivateSession with a single good result. -/
def world : World :=
  { randRead := fun n => .ok (List.replicate n 7)
    unixNano := 1
    NewSignatureDataFrom := fun cert nonce => ⟨"cert+nonce", cert ++ nonce⟩
    peer := fun _ req =>
      match req with
      | .createSession _ => .ok (.createSessionResponse unsignedResponse)
      | .activateSession _ => .ok (.activateSessionResponse ⟨[0]⟩)
      | .closeSession => .error "closed" }

/-- A world whose channel fails every send. -/
def deadWorld : World :=
  { world with peer := fun _ _ => .error "EOF" }

/-- A fresh session over a channel that has sent nothing yet. -/
def session : Session :=
  NewSession
    { EndpointURL := "opc.tcp://localhost:4840", cfg := ⟨[1, 2, 3]⟩,
      reqhdr := ⟨0⟩, sent := [] }
    { ClientDescription := "client", ServerEndpoints := [], SessionTimeout := 0,
      LocaleIDs := ["en"], UserIdentityToken := [], UserTokenSignature := none }

end examples

/-! ## Facts about `Lookup` -/

namespace resolve

theorem LookupFrom_not_mem (s : String) (ns : List String) (k : Nat)
    (h : s ∉ ns) : LookupFrom s ns k = (0, some (unknownNamespace s)) := by
  induction ns generalizing k with
  | nil => rfl
  | cons a rest ih =>
    have ha : a ≠ s := fun e => h (by simp [e])
    have hr : s ∉ rest := fun e => h (by simp [e])
    simp [LookupFrom, ha, ih _ hr]

theorem LookupFrom_append_hit (s : String) (pre rest : List String) (k : Nat)
    (h : s ∉ pre) :
    LookupFrom s (pre ++ s :: rest) k = (uint16 (k + pre.length), none) := by
  induction pre generalizing k with
  | nil => simp [LookupFrom]
  | cons a pre ih =>
    have ha : a ≠ s := fun e => h (by simp [e])
    have hr : s ∉ pre := fun e => h (by simp [e])
    simp [LookupFrom, ha, ih _ hr]
    congr 1
    omega

theorem LookupFrom_err_isSome_iff (s : String) (ns : List String) (k : Nat) :
    (LookupFrom s ns k).2.isSome = true ↔ s ∉ ns := by
  induction ns generalizing k with
  | nil => simp [LookupFrom]
  | cons a rest ih =>
    by_cases ha : a = s
    · simp [LookupFrom, ha]
    · have hs : ¬ s = a := fun e => ha e.symm
      simp [LookupFrom, ha, hs, ih]

/-- Every successful `LookupFrom` splits the list at the first occurrence. -/
theorem LookupFrom_ok_split (s : String) (ns : List String) (k id : Nat)
    (h : LookupFrom s ns k = (id, none)) :
    ∃ pre rest, ns = pre ++ s :: rest ∧ s ∉ pre ∧ id = uint16 (k + pre.length) := by
  induction ns generalizing k with
  | nil => simp [LookupFrom] at h
  | cons a tl ih =>
    by_cases ha : a = s
    · refine ⟨[], tl, by simp [ha], by simp, ?_⟩
      simp [LookupFrom, ha] at h
      simp [h]
    · simp only [LookupFrom, ha, if_false] at h
      obtain ⟨pre, rest, e, hp, hid⟩ := ih (k + 1) h
      have hs : ¬ s = a := fun e => ha e.symm
      refine ⟨a :: pre, rest, by simp [e], by simp [hs, hp], ?_⟩
      rw [hid]
      congr 1
      simp
      omega

end resolve

/-! ## The resolver -/

namespace resolve

theorem Lookup_replicate_then_hit (n : Nat) :
    Lookup "b" (List.replicate n "a" ++ ["b"]) = (uint16 n, none) := by
  have h : "b" ∉ List.replicate n "a" := by
    intro hm
    have := List.eq_of_mem_replicate hm
    exact absurd this (by decide)
  have := LookupFrom_append_hit "b" (List.replicate n "a") [] 0 h
  rw [List.length_replicate, Nat.zero_add] at this
  exact this

/-- Below the range of `uint16` the index `Lookup` returns is the first
position of `s`: the element there is `s` and no earlier element is. -/
theorem Lookup_first_index_of_short (s : String) (ns : List String) (id : Nat)
    (hlen : ns.length ≤ 65536) (h : Lookup s ns = (id, none)) :
    ns[id]? = some s ∧ ∀ j, j < id → ns[j]? ≠ some s := by
  obtain ⟨pre, rest, e, hp, hid⟩ := LookupFrom_ok_split s ns 0 id h
  have hl : pre.length < 65536 := by
    have : ns.length = pre.length + (rest.length + 1) := by simp [e]
    omega
  have hid2 : id = pre.length := by
    rw [hid, uint16, Nat.zero_add, Nat.mod_eq_of_lt hl]
  rw [hid2, e]
  constructor
  · rw [List.getElem?_append_right (Nat.le_refl _), Nat.sub_self]
    simp
  · intro j hj hget
    rw [List.getElem?_append_left hj] at hget
    exact hp (List.getElem?_mem hget)

/-- C1, at the failing input: on the 65537 namespaces `a, ..., a, b` the
lookup of `b` returns id 0 with no error, although entry 0 is `a` and the
first (and only) `b` is entry 65536. -/
theorem Lookup_wraps_past_uint16 :
    Lookup "b" examples.longNamespaces = (0, none) ∧
      examples.longNamespaces[0]? = some "a" ∧
      examples.longNamespaces[65536]? = some "b" ∧
      examples.longNamespaces.length = 65537 := by
  refine ⟨?_, ?_, ?_, ?_⟩
  · exact Lookup_replicate_then_hit 65536
  · unfold examples.longNamespaces
    rw [List.getElem?_append_left (by rw [List.length_replicate]; decide)]
    exact List.getElem?_replicate_of_lt (by decide)
  · unfold examples.longNamespaces
    rw [List.getElem?_append_right (by rw [List.length_replicate])]
    rw [List.length_replicate]
    rfl
  · unfold examples.longNamespaces
    rw [List.length_append, List.length_replicate]
    rfl

/-- C2: `Lookup` returns an error exactly when no element of `ns` equals `s`,
and the result is then id 0 with the error `unknown namespace url s`; the
static resolver is the same function; a URL that matches an entry only up to
letter case is unknown. -/
theorem Lookup_error_iff_absent (s : String) (ns : List String) :
    ((Lookup s ns).2.isSome = true ↔ ∀ nsu ∈ ns, nsu ≠ s) ∧
      ((∀ nsu ∈ ns, nsu ≠ s) ↔ Lookup s ns = (0, some (unknownNamespace s))) ∧
      StringArrayResolver.Lookup ⟨ns⟩ s = Lookup s ns ∧
      Lookup "HTTP://Example.org/UA/" ["http://example.org/UA/"] =
        (0, some "unknown namespace url HTTP://Example.org/UA/") := by
  have hmem : (∀ nsu ∈ ns, nsu ≠ s) ↔ s ∉ ns := by
    constructor
    · intro h hm
      exact h s hm rfl
    · intro h nsu hm e
      exact h (e ▸ hm)
  refine ⟨?_, ?_, rfl, by decide⟩
  · rw [hmem]
    exact LookupFrom_err_isSome_iff s ns 0
  · rw [hmem]
    constructor
    · intro h
      exact LookupFrom_not_mem s ns 0 h
    · intro h
      have : (Lookup s ns).2.isSome = true := by rw [h]; rfl
      exact (LookupFrom_err_isSome_iff s ns 0).1 this

theorem refreshAll_errors (r : ClientResolver) (errs : List String) :
    r.refreshAll (errs.map Except.error) = r := by
  induction errs with
  | nil => rfl
  | cons e es ih => simpa [ClientResolver.refreshAll, ClientResolver.Refresh] using ih

/-- C10: `Refresh` replaces the cached list as a whole or not at all.  A failed
`NamespaceArray` call is returned and leaves the resolver as it was; a call
that yields `L` returns no error and makes every later `Lookup s` equal to
`Lookup s L`, also across later failed refreshes; a zero-value resolver that
has seen only failed refreshes answers every `s` with an error. -/
theorem ClientResolver_refresh_all_or_nothing (r : ClientResolver)
    (L : List String) (err s : String) (errs : List String) :
    r.Refresh (.error err) = (r, some err) ∧
      (r.Refresh (.error err)).1.Lookup s = r.Lookup s ∧
      (r.Refresh (.ok L)).2 = none ∧
      (r.Refresh (.ok L)).1.Lookup s = Lookup s L ∧
      ((r.Refresh (.ok L)).1.refreshAll (errs.map Except.error)).Lookup s =
        Lookup s L ∧
      (ClientResolver.zero.refreshAll (errs.map Except.error)).Lookup s =
        (0, some (unknownNamespace s)) := by
  refine ⟨rfl, rfl, rfl, rfl, ?_, ?_⟩
  · rw [refreshAll_errors]
    rfl
  · rw [refreshAll_errors]
    rfl

end resolve

/-! ## The session -/

namespace uasc

open services

theorem checkResults_isSome_iff (rs : List Nat) :
    (checkResults rs).isSome = true ↔ ∃ r ∈ rs, r ≠ 0 := by
  induction rs with
  | nil => simp [checkResults]
  | cons r rest ih =>
    by_cases hr : r = 0
    · simp [checkResults, hr, ih]
    · simp [checkResults, hr]

theorem checkResults_eq_rejected (rs : List Nat) :
    checkResults rs = none ∨ checkResults rs = some "rejected" := by
  induction rs with
  | nil => exact Or.inl rfl
  | cons r rest ih =>
    by_cases hr : r = 0
    · simpa [checkResults, hr] using ih
    · exact Or.inr (by simp [checkResults, hr])

/-- C3: handed an ActivateSessionResponse, the activateSession handler returns
an error exactly when some result code is non-zero, and that error is
`rejected`; it returns nil exactly when every result code is zero, so also for
the empty list; the session itself is left as it was; and when the channel
delivers that response, `activateSession` fails exactly when some result code
is non-zero. -/
theorem activateSession_rejects_iff_nonzero_result
    (w : World) (resp : ActivateSessionResponse) (s : Session) :
    ((Session.activateSessionHandler (.activateSessionResponse resp) s).2.isSome = true ↔
        ∃ r ∈ resp.Results, r ≠ 0) ∧
      ((Session.activateSessionHandler (.activateSessionResponse resp) s).2 = some "rejected" ↔
        ∃ r ∈ resp.Results, r ≠ 0) ∧
      ((Session.activateSessionHandler (.activateSessionResponse resp) s).2 = none ↔
        ∀ r ∈ resp.Results, r = 0) ∧
      (Session.activateSessionHandler (.activateSessionResponse ⟨[]⟩) s).2 = none ∧
      (Session.activateSessionHandler (.activateSessionResponse resp) s).1 = s ∧
      ((Session.activateSession
          { w with peer := fun _ _ => .ok (.activateSessionResponse resp) } s).2.isSome = true ↔
        ∃ r ∈ resp.Results, r ≠ 0) := by
  have h1 := checkResults_isSome_iff resp.Results
  have h2 := checkResults_eq_rejected resp.Results
  refine ⟨h1, ?_, ?_, rfl, rfl, h1⟩
  · show checkResults resp.Results = some "rejected" ↔ _
    rw [← h1]
    rcases h2 with h | h <;> simp [h]
  · show checkResults resp.Results = none ↔ _
    have h3 : (∀ r ∈ resp.Results, r = 0) ↔ ¬ ∃ r ∈ resp.Results, r ≠ 0 := by
      simp
    rw [h3, ← h1]
    rcases h2 with h | h <;> simp [h]

/-- C4, at the failing input: the server answers CreateSession with a response
that carries no server signature, so it differs from the signature the client
expects (`mySignature`, computed from its own certificate and nonce); the
createSession handler still returns nil, `createSession` returns nil, and
`Open` succeeds. -/
theorem createSession_accepts_wrong_server_signature :
    examples.unsignedResponse.ServerSignature ≠
        (Session.createSessionHandler examples.world (List.replicate 32 7)
          (.createSessionResponse examples.unsignedResponse) examples.session).1.mySignature ∧
      (Session.createSessionHandler examples.world (List.replicate 32 7)
          (.createSessionResponse examples.unsignedResponse) examples.session).1.mySignature =
        some (examples.world.NewSignatureDataFrom [1, 2, 3] (List.replicate 32 7)) ∧
      (Session.createSessionHandler examples.world (List.replicate 32 7)
          (.createSessionResponse examples.unsignedResponse) examples.session).2 = none ∧
      (Session.createSession examples.world examples.session).2 = none ∧
      (Session.Open examples.world examples.session).2 = none := by
  refine ⟨?_, rfl, rfl, rfl, rfl⟩
  intro h
  exact absurd h (by simp [Session.createSessionHandler, examples.unsignedResponse])

/-- The createSession handler never compares the server signature: every
CreateSessionResponse is accepted, whatever its `ServerSignature`. -/
theorem createSessionHandler_accepts_every_response (w : World) (nonce : List Nat)
    (resp : CreateSessionResponse) (s : Session) :
    (Session.createSessionHandler w nonce (.createSessionResponse resp) s).2 = none :=
  rfl

/-- C5, as stated, fails: closing a fresh session whose channel has sent
nothing leaves the channel with nothing sent, so no CloseSession request was
issued. -/
theorem Close_issues_no_CloseSession :
    (Session.Close examples.session).1.sechan.sent = [] ∧
      ¬ ∃ req ∈ (Session.Close examples.session).1.sechan.sent,
          req.isCloseSession = true := by
  constructor
  · rfl
  · rintro ⟨req, hmem, _⟩
    have h0 : (Session.Close examples.session).1.sechan.sent = [] := rfl
    rw [h0] at hmem
    exact absurd hmem (List.not_mem_nil req)

/-- C5, amended: `Close` returns no error for every session and hands nothing
to the secure channel: the session, its channel and the list of requests sent
are as before. -/
theorem Close_is_noop (s : Session) :
    (Session.Close s).2 = none ∧
      (Session.Close s).1 = s ∧
      (Session.Close s).1.sechan.sent = s.sechan.sent :=
  ⟨rfl, rfl, rfl⟩

theorem Send_sent (w : World) (s : Session) (req : Service)
    (h : Value → Session → Session × Option String)
    (hh : ∀ v t, (h v t).1.sechan.sent = t.sechan.sent) :
    (SecureChannel.Send w s req h).1.sechan.sent = s.sechan.sent ++ [req] := by
  unfold SecureChannel.Send
  cases w.peer s.sechan.sent req with
  | error e => rfl
  | ok v => simp only [hh]

theorem createSessionHandler_sent (w : World) (nonce : List Nat) (v : Value)
    (t : Session) :
    (Session.createSessionHandler w nonce v t).1.sechan.sent = t.sechan.sent := by
  cases v <;> rfl

theorem activateSessionHandler_sent (v : Value) (t : Session) :
    (Session.activateSessionHandler v t).1.sechan.sent = t.sechan.sent := by
  cases v <;> rfl

theorem activateSession_sent (w : World) (s : Session) :
    (Session.activateSession w s).1.sechan.sent =
      s.sechan.sent ++ [.activateSession s.activateSessionRequest] :=
  Send_sent w s _ _ activateSessionHandler_sent

/-- C6: `Open` is CreateSession then ActivateSession.  Either `createSession`
returns an error, and then `Open` returns exactly that error, leaving the
session as `createSession` left it, with nothing sent (the random source
failed) or only the CreateSession request sent; or `createSession` returns nil,
and then `Open` is `activateSession` run on the session `createSession` left,
and the channel has been handed the CreateSession request followed by the
ActivateSession request. -/
theorem Open_creates_then_activates (w : World) (s : Session) :
    (∃ err, (Session.createSession w s).2 = some err ∧
        Session.Open w s = ((Session.createSession w s).1, some err) ∧
        ((Session.Open w s).1.sechan.sent = s.sechan.sent ∨
          ∃ nonce, (Session.Open w s).1.sechan.sent =
            s.sechan.sent ++ [.createSession (s.createSessionRequest w nonce)])) ∨
      ((Session.createSession w s).2 = none ∧
        Session.Open w s = Session.activateSession w (Session.createSession w s).1 ∧
        ∃ nonce, (Session.Open w s).1.sechan.sent =
          s.sechan.sent ++ [.createSession (s.createSessionRequest w nonce),
            .activateSession (Session.createSession w s).1.activateSessionRequest]) := by
  have hsent : (Session.createSession w s).1.sechan.sent = s.sechan.sent ∨
      ∃ nonce, w.randRead 32 = .ok nonce ∧ (Session.createSession w s).1.sechan.sent =
        s.sechan.sent ++ [.createSession (s.createSessionRequest w nonce)] := by
    unfold Session.createSession
    cases hr : w.randRead 32 with
    | error e => exact Or.inl rfl
    | ok nonce =>
      exact Or.inr ⟨nonce, rfl, Send_sent w s _ _ (createSessionHandler_sent w nonce)⟩
  have hok : (Session.createSession w s).2 = none →
      ∃ nonce, (Session.createSession w s).1.sechan.sent =
        s.sechan.sent ++ [.createSession (s.createSessionRequest w nonce)] := by
    intro hnone
    rcases hsent with h | ⟨nonce, _, h⟩
    · exfalso
      unfold Session.createSession at hnone h
      cases hr : w.randRead 32 with
      | error e => rw [hr] at hnone; simp at hnone
      | ok nonce =>
        rw [hr] at h
        have := Send_sent w s (.createSession (s.createSessionRequest w nonce))
          (Session.createSessionHandler w nonce) (createSessionHandler_sent w nonce)
        simp only [] at h
        rw [this] at h
        simp at h
    · exact ⟨nonce, h⟩
  cases hc : Session.createSession w s with
  | mk s1 e =>
    cases e with
    | some err =>
      left
      refine ⟨err, rfl, ?_, ?_⟩
      · simp [Session.Open, hc]
      · have ho : Session.Open w s = (s1, some err) := by simp [Session.Open, hc]
        rw [ho]
        rw [hc] at hsent
        rcases hsent with h | ⟨nonce, _, h⟩
        · exact Or.inl h
        · exact Or.inr ⟨nonce, h⟩
    | none =>
      right
      have ho : Session.Open w s = Session.activateSession w s1 := by
        simp [Session.Open, hc]
      refine ⟨rfl, ho, ?_⟩
      obtain ⟨nonce, h⟩ := hok (by rw [hc])
      rw [hc] at h
      refine ⟨nonce, ?_⟩
      rw [ho, activateSession_sent]
      simp only [] at h ⊢
      rw [h]
      simp

/-- C7: after the createSession handler has taken a CreateSessionResponse
`resp` (it returns nil), the ActivateSessionRequest that `activateSession`
builds and hands to the channel has as `ClientSignature` the value
`NewSignatureDataFrom(resp.ServerCertificate, resp.ServerNonce)`, and the
channel's request header carries `resp.AuthenticationToken`, before and after
the ActivateSession exchange. -/
theorem activate_request_signed_from_create_response (w : World) (nonce : List Nat)
    (resp : CreateSessionResponse) (s : Session) :
    (Session.createSessionHandler w nonce (.createSessionResponse resp) s).2 = none ∧
      (Session.createSessionHandler w nonce
          (.createSessionResponse resp) s).1.activateSessionRequest.ClientSignature =
        some (w.NewSignatureDataFrom resp.ServerCertificate resp.ServerNonce) ∧
      (Session.createSessionHandler w nonce
          (.createSessionResponse resp) s).1.sechan.reqhdr.AuthenticationToken =
        resp.AuthenticationToken ∧
      (Session.activateSession w (Session.createSessionHandler w nonce
          (.createSessionResponse resp) s).1).1.sechan.sent =
        s.sechan.sent ++ [.activateSession
          { ClientSignature :=
              some (w.NewSignatureDataFrom resp.ServerCertificate resp.ServerNonce)
            ClientSoftwareCertificates := []
            LocaleIDs := s.cfg.LocaleIDs
            UserIdentityToken := ⟨1, s.cfg.UserIdentityToken⟩
            UserTokenSignature := s.cfg.UserTokenSignature }] ∧
      (Session.activateSession w (Session.createSessionHandler w nonce
          (.createSessionResponse resp) s).1).1.sechan.reqhdr.AuthenticationToken =
        resp.AuthenticationToken := by
  refine ⟨rfl, rfl, rfl, ?_, ?_⟩
  · rw [activateSession_sent]
    rfl
  · unfold Session.activateSession SecureChannel.Send
    cases w.peer _ _ with
    | error e => rfl
    | ok v => cases v <;> rfl

end uasc

/-! ## The handshake codec -/

namespace codec

theorem putUint32_length (v : Nat) : (putUint32 v).length = 4 := rfl

theorem putUint32_byte_lt (v b : Nat) (h : b ∈ putUint32 v) : b < 256 := by
  simp only [putUint32, List.mem_cons, List.mem_singleton, List.not_mem_nil, or_false] at h
  rcases h with h | h | h | h <;> omega

theorem leValue_putUint32 (v : Nat) (h : v < 2 ^ 32) : leValue (putUint32 v) = v := by
  simp only [putUint32, leValue]
  omega

theorem getUint32_putUint32 (v : Nat) (rest : List Nat) (h : v < 2 ^ 32) :
    getUint32 (putUint32 v ++ rest) = .ok (v, rest) := by
  have e : v % 256 + 256 * (v / 256 % 256) + 65536 * (v / 65536 % 256) +
      16777216 * (v / 16777216 % 256) = v := by omega
  simp only [putUint32, List.cons_append, List.nil_append, getUint32, e]

theorem getUint16_putUint16 (v : Nat) (rest : List Nat) (h : v < 2 ^ 16) :
    getUint16 (putUint16 v ++ rest) = .ok (v, rest) := by
  have e : v % 256 + 256 * (v / 256 % 256) = v := by omega
  simp only [putUint16, List.cons_append, List.nil_append, getUint16, e]

end codec

namespace uacp

open codec

/-- C8: for `uint32` arguments, `NewAcknowledge` encodes to exactly 20 bytes:
four 4-byte groups that are the little-endian forms of the version, the
receive-buffer size, the send-buffer size and the maximum message size, in
that order, followed by `00 00 00 00` for `MaxChunkCount`; decoding these
bytes consumes all 20 and gives back the original value. -/
theorem Acknowledge_encode_decode (version recvBuf sendBuf maxMsg : Nat)
    (hv : version < 2 ^ 32) (hr : recvBuf < 2 ^ 32) (hs : sendBuf < 2 ^ 32)
    (hm : maxMsg < 2 ^ 32) :
    (∃ bv br bs bm : List Nat,
        (NewAcknowledge version recvBuf sendBuf maxMsg).encode =
          bv ++ br ++ bs ++ bm ++ [0, 0, 0, 0] ∧
        bv.length = 4 ∧ br.length = 4 ∧ bs.length = 4 ∧ bm.length = 4 ∧
        (∀ b ∈ bv ++ br ++ bs ++ bm, b < 256) ∧
        leValue bv = version ∧ leValue br = recvBuf ∧
        leValue bs = sendBuf ∧ leValue bm = maxMsg) ∧
      (NewAcknowledge version recvBuf sendBuf maxMsg).encode.length = 20 ∧
      Acknowledge.decode (NewAcknowledge version recvBuf sendBuf maxMsg).encode =
        .ok (NewAcknowledge version recvBuf sendBuf maxMsg, 20) := by
  have h0 : putUint32 0 = [0, 0, 0, 0] := by decide
  refine ⟨⟨putUint32 version, putUint32 recvBuf, putUint32 sendBuf, putUint32 maxMsg,
    ?_, rfl, rfl, rfl, rfl, ?_, leValue_putUint32 _ hv, leValue_putUint32 _ hr,
    leValue_putUint32 _ hs, leValue_putUint32 _ hm⟩, rfl, ?_⟩
  · unfold Acknowledge.encode NewAcknowledge
    simp only [h0]
  · intro b hb
    simp only [List.mem_append] at hb
    rcases hb with ((hb | hb) | hb) | hb <;> exact putUint32_byte_lt _ b hb
  · unfold Acknowledge.decode Acknowledge.encode NewAcknowledge
    simp only [List.append_assoc]
    rw [getUint32_putUint32 _ _ hv]
    simp only []
    rw [getUint32_putUint32 _ _ hr]
    simp only []
    rw [getUint32_putUint32 _ _ hs]
    simp only []
    rw [getUint32_putUint32 _ _ hm]
    rfl

/-- C8 at the values of `TestAcknowledge`: (0, 65280, 65535, 4000) are
`uint32` values, the theorem applies to them, and the bytes are
`00000000 00FF0000 FFFF0000 A00F0000 00000000`. -/
theorem Acknowledge_encode_decode_witness :
    ((0 : Nat) < 2 ^ 32 ∧ (65280 : Nat) < 2 ^ 32 ∧ (65535 : Nat) < 2 ^ 32 ∧
        (4000 : Nat) < 2 ^ 32) ∧
      ((∃ bv br bs bm : List Nat,
          (NewAcknowledge 0 65280 65535 4000).encode =
            bv ++ br ++ bs ++ bm ++ [0, 0, 0, 0] ∧
          bv.length = 4 ∧ br.length = 4 ∧ bs.length = 4 ∧ bm.length = 4 ∧
          (∀ b ∈ bv ++ br ++ bs ++ bm, b < 256) ∧
          leValue bv = 0 ∧ leValue br = 65280 ∧
          leValue bs = 65535 ∧ leValue bm = 4000) ∧
        (NewAcknowledge 0 65280 65535 4000).encode.length = 20 ∧
        Acknowledge.decode (NewAcknowledge 0 65280 65535 4000).encode =
          .ok (NewAcknowledge 0 65280 65535 4000, 20)) ∧
      (NewAcknowledge 0 65280 65535 4000).encode =
        [0x00, 0x00, 0x00, 0x00, 0x00, 0xff, 0x00, 0x00, 0xff, 0xff, 0x00, 0x00,
         0xa0, 0x0f, 0x00, 0x00, 0x00, 0x00, 0x00, 0x00] :=
  ⟨by decide,
   Acknowledge_encode_decode 0 65280 65535 4000 (by decide) (by decide) (by decide)
     (by decide),
   by decide⟩

end uacp

namespace datatypes

open codec

/-- The case `normal` of `TestQualifiedName`: `NewQualifiedName(1, "foobar")`
and the bytes `01 00 06 00 00 00 66 6f 6f 62 61 72` are each other's encoding
and decoding. -/
theorem TestQualifiedName_normal :
    (NewQualifiedName 1 [0x66, 0x6f, 0x6f, 0x62, 0x61, 0x72]).encode =
        [0x01, 0x00, 0x06, 0x00, 0x00, 0x00, 0x66, 0x6f, 0x6f, 0x62, 0x61, 0x72] ∧
      QualifiedName.decode
          [0x01, 0x00, 0x06, 0x00, 0x00, 0x00, 0x66, 0x6f, 0x6f, 0x62, 0x61, 0x72] =
        .ok (NewQualifiedName 1 [0x66, 0x6f, 0x6f, 0x62, 0x61, 0x72], 12) :=
  ⟨by decide, rfl⟩

/-- C9: the codec keeps empty and null strings distinct.  For every `uint16`
namespace index, `NewQualifiedName(ns, "")` encodes as the 2-byte little-endian
namespace index followed by the length field `00 00 00 00` and no further
bytes, which is not the encoding with the null length `ff ff ff ff`; decoding
these 6 bytes gives back `NewQualifiedName(ns, "")`, whose name is empty and
not null.  The null name encodes with the length field `ff ff ff ff` and
decodes back to the null name. -/
theorem QualifiedName_empty_name_encoding (ns : Nat) (h : ns < 2 ^ 16) :
    (NewQualifiedName ns []).encode = [ns % 256, ns / 256, 0x00, 0x00, 0x00, 0x00] ∧
      leValue [ns % 256, ns / 256] = ns ∧
      (NewQualifiedName ns []).encode ≠ [ns % 256, ns / 256, 0xff, 0xff, 0xff, 0xff] ∧
      QualifiedName.decode (NewQualifiedName ns []).encode =
        .ok (NewQualifiedName ns [], 6) ∧
      (NewQualifiedName ns []).Name = some [] ∧
      (NewQualifiedName ns []).Name ≠ none ∧
      QualifiedName.encode ⟨ns, none⟩ = [ns % 256, ns / 256, 0xff, 0xff, 0xff, 0xff] ∧
      QualifiedName.decode (QualifiedName.encode ⟨ns, none⟩) = .ok (⟨ns, none⟩, 6) := by
  have hdiv : ns / 256 % 256 = ns / 256 := by omega
  have henc : (NewQualifiedName ns []).encode =
      [ns % 256, ns / 256, 0x00, 0x00, 0x00, 0x00] := by
    simp [QualifiedName.encode, NewQualifiedName, putUint16, putString, putUint32, hdiv]
  refine ⟨henc, ?_, ?_, ?_, rfl, ?_, ?_, ?_⟩
  · simp only [leValue]
    omega
  · rw [henc]
    simp
  · unfold QualifiedName.decode QualifiedName.encode NewQualifiedName
    rw [getUint16_putUint16 _ _ h]
    rfl
  · simp [NewQualifiedName]
  · simp [QualifiedName.encode, putUint16, putString, putUint32, null, hdiv]
  · unfold QualifiedName.decode QualifiedName.encode
    rw [getUint16_putUint16 _ _ h]
    rfl

/-- C9 at namespace index 1: `NewQualifiedName(1, "")` is `01 00 00 00 00 00`. -/
theorem QualifiedName_empty_name_encoding_witness :
    (1 : Nat) < 2 ^ 16 ∧
      ((NewQualifiedName 1 []).encode = [1 % 256, 1 / 256, 0x00, 0x00, 0x00, 0x00] ∧
        leValue [1 % 256, 1 / 256] = 1 ∧
        (NewQualifiedName 1 []).encode ≠ [1 % 256, 1 / 256, 0xff, 0xff, 0xff, 0xff] ∧
        QualifiedName.decode (NewQualifiedName 1 []).encode =
          .ok (NewQualifiedName 1 [], 6) ∧
        (NewQualifiedName 1 []).Name = some [] ∧
        (NewQualifiedName 1 []).Name ≠ none ∧
        QualifiedName.encode ⟨1, none⟩ = [1 % 256, 1 / 256, 0xff, 0xff, 0xff, 0xff] ∧
        QualifiedName.decode (QualifiedName.encode ⟨1, none⟩) = .ok (⟨1, none⟩, 6)) ∧
      (NewQualifiedName 1 []).encode = [0x01, 0x00, 0x00, 0x00, 0x00, 0x00] :=
  ⟨by decide, QualifiedName_empty_name_encoding 1 (by decide), by decide⟩

end datatypes

end Gopcua
